import Mathlib

/-!
Verification of the ART-PI audio acquisition / VAD / recording hand-off
pipeline, shallowly embedded from the C sources:

  * `src/SAI/drv_sai_inmp441.c`  — DMA frame producer and bounded frame ring
  * `src/SAI/audio_process.h`    — adaptive VAD and recording state machine
  * `src/STT/stt_manager.c`      — zero-copy hand-off with last-writer-wins

Machine integers are modelled with `Nat`/`Int`; C `float` arithmetic is
modelled over `ℚ` (the claims checked here depend only on comparisons and
counter logic, not on rounding).  Fallible C computations (division by a
possibly-zero count) are modelled with `Option`.
-/

namespace ArtPi

/-! ## Constants from `src/SAI/drv_sai_inmp441.h` -/

def INMP441_SAMPLE_RATE : Nat := 16000
def INMP441_BIT_WIDTH : Nat := 24
def INMP441_CHANNEL_NUM : Nat := 1
def AUDIO_BUFFER_COUNT : Nat := 4
def AUDIO_FRAME_SIZE : Nat := 512

/-! ## Constants from `src/SAI/audio_process.h` -/

def VAD_HANGOVER_FRAMES : Nat := 10

/-! ## RT-Thread error codes (`rt_err_t`), as used by the sources -/

def RT_EOK : Int := 0
def RT_ERROR : Int := 1

/-! ## Audio frame (`audio_frame_t` in `drv_sai_inmp441.h`)

`buffer` is `none` when the C pointer is `RT_NULL`; `size` is the sample
count field, kept separate from the list as in the struct. -/

structure audio_frame where
  buffer : Option (List Int)
  size : Nat
  sample_rate : Nat := INMP441_SAMPLE_RATE
  channels : Nat := INMP441_CHANNEL_NUM
  bit_width : Nat := INMP441_BIT_WIDTH
  timestamp : Nat := 0
  deriving Repr, DecidableEq

/-- The samples actually addressed by the C code when it walks
`frame->buffer[0 .. frame->size)`. -/
def audio_frame.samples (f : audio_frame) : List Int :=
  (f.buffer.getD []).take f.size

/-- Arithmetic shift right by 8 bits (C `>> 8` on a signed 32-bit value):
floor division by 256. -/
def asr8 (x : Int) : Int := Int.fdiv x 256

/-! ## INMP441 device state (`inmp441_device_t` in `drv_sai_inmp441.c`)

The frame ring is the `frames` list (length `AUDIO_BUFFER_COUNT` in the C
struct); `buffer_sem` is the value of the counting semaphore released once
per enqueued frame. -/

structure inmp441_device where
  is_initialized : Bool
  is_running : Bool
  frames : List audio_frame
  write_idx : Nat
  read_idx : Nat
  frame_count : Nat
  overrun_count : Nat
  total_frames : Nat
  dma_errors : Nat
  buffer_sem : Nat
  deriving Repr, DecidableEq

/-- De-interleave of the stereo DMA buffer done by `process_dma_data`:
`frame->buffer[i] = src[i * 2] >> 8` for `i < copy_size`. -/
def deinterleave (src : List Int) (copy_size : Nat) : List Int :=
  (List.range copy_size).map (fun i => asr8 (src.getD (2 * i) 0))

/-- `process_dma_data` (`drv_sai_inmp441.c:286-348`): the completion-callback
push into the frame ring.  `now` models `rt_tick_get()`.  The static debug
print counter is omitted (it only gates `rt_kprintf` output). -/
def process_dma_data (dev : inmp441_device) (src : List Int)
    (sample_count : Nat) (now : Nat) : inmp441_device :=
  if dev.is_running = false then dev
  else if AUDIO_BUFFER_COUNT ≤ dev.frame_count then
    { dev with overrun_count := dev.overrun_count + 1 }
  else
    let mono_count := sample_count / 2
    let copy_size := min mono_count AUDIO_FRAME_SIZE
    let frame : audio_frame :=
      { buffer := some (deinterleave src copy_size)
        size := copy_size
        sample_rate := INMP441_SAMPLE_RATE
        channels := INMP441_CHANNEL_NUM
        bit_width := INMP441_BIT_WIDTH
        timestamp := now }
    { dev with
        frames := dev.frames.set dev.write_idx frame
        write_idx := (dev.write_idx + 1) % AUDIO_BUFFER_COUNT
        frame_count := dev.frame_count + 1
        total_frames := dev.total_frames + 1
        buffer_sem := dev.buffer_sem + 1 }

/-- Iterated completion-callback pushes (consumer stalled: no pops in
between).  Each list entry is one `(src, sample_count, now)` callback. -/
def process_dma_run (dev : inmp441_device)
    (pushes : List (List Int × Nat × Nat)) : inmp441_device :=
  pushes.foldl (fun d p => process_dma_data d p.1 p.2.1 p.2.2) dev

/-- `inmp441_start` (`drv_sai_inmp441.c:501-531`).  `halOk` models the
result of `HAL_SAI_Receive_DMA`; note the C resets the ring indices before
that call, so a failed start still leaves them reset. -/
def inmp441_start (dev : inmp441_device) (halOk : Bool) :
    inmp441_device × Int :=
  if dev.is_initialized = false then (dev, -RT_ERROR)
  else if dev.is_running then (dev, RT_EOK)
  else
    let dev' := { dev with write_idx := 0, read_idx := 0, frame_count := 0 }
    if halOk = false then (dev', -RT_ERROR)
    else ({ dev' with is_running := true }, RT_EOK)

/-- `inmp441_stop` (`drv_sai_inmp441.c:533-547`). -/
def inmp441_stop (dev : inmp441_device) : inmp441_device × Int :=
  if dev.is_running = false then (dev, RT_EOK)
  else ({ dev with is_running := false }, RT_EOK)

/-! ## STT manager (`src/STT/stt_manager.c`) -/

inductive stt_state where
  | STT_STATE_IDLE
  | STT_STATE_RECORDING
  | STT_STATE_ENCODING
  | STT_STATE_UPLOADING
  | STT_STATE_DISPLAYING
  | STT_STATE_ERROR
  deriving Repr, DecidableEq

def STT_MSG_NEW_RECORDING : Nat := 1

/-- `rt_mb_send` into the manager's mailbox, created with capacity 4
(`rt_mb_create("stt_mb", 4, ...)`); a send to a full mailbox fails without
blocking and without changing the mailbox. -/
def rt_mb_send (mbox : List Nat) (msg : Nat) : List Nat :=
  if mbox.length < 4 then mbox ++ [msg] else mbox

/-- `stt_manager_ctx_t` (`stt_manager.c:22-40`), restricted to the fields
the hand-off contract touches.  `pcm_ptr` models the raw pointer as an
abstract address (`none` = `RT_NULL`). -/
structure stt_manager_ctx where
  running : Bool
  state : stt_state
  pcm_ptr : Option Nat
  pcm_samples : Nat
  data_ready : Bool
  mbox : List Nat
  deriving Repr, DecidableEq

/-- `stt_manager_feed_recording` (`stt_manager.c:270-296`): under the lock,
unconditionally overwrite pointer/length, set `data_ready`; then post a
mailbox notification exactly when the manager's state reads Idle.  The
`sample_rate` argument is accepted and ignored, as in the C. -/
def stt_manager_feed_recording (ctx : stt_manager_ctx) (pcm32 : Option Nat)
    (samples : Nat) (_sample_rate : Nat) : stt_manager_ctx :=
  if ctx.running = false then ctx
  else
    let ctx1 := { ctx with pcm_ptr := pcm32, pcm_samples := samples,
                           data_ready := true }
    if ctx1.state = stt_state.STT_STATE_IDLE then
      { ctx1 with mbox := rt_mb_send ctx1.mbox STT_MSG_NEW_RECORDING }
    else ctx1

/-- The consumer's read of the shared pointer/length under the lock
(`stt_thread_entry`, `stt_manager.c:79-88`): it proceeds only when
`data_ready` holds and the pointer is non-null. -/
def stt_consumer_observe (ctx : stt_manager_ctx) : Option (Nat × Nat) :=
  if ctx.data_ready then
    match ctx.pcm_ptr with
    | some p => some (p, ctx.pcm_samples)
    | none => none
  else none

/-! ## Adaptive VAD (`src/SAI/audio_process.h:1602-1803`) -/

/-- Modelled from the spec: the compile-time VAD tuning constants
`VAD_CALIBRATION_FRAMES`, `VAD_THRESHOLD_RATIO`, `VAD_ZCR_MIN`,
`VAD_ZCR_MAX`, `VAD_MIN_SPEECH_FRAMES`, `VAD_ENERGY_SMOOTH_ALPHA`,
`VAD_NOISE_FLOOR_ALPHA` and `VAD_ENERGY_THRESHOLD_INIT` are referenced by
`src/SAI/audio_process.h` but defined in a configuration header that is not
part of `src/`.  Following §4.3 and §6 of the spec they are kept as
parameters here (spec examples: calibration count ≈ 50, minimum speech run
≈ 3, smoothing α ≈ 0.3, threshold ratio > 1).  `VAD_ADAPTIVE_ENABLED` is
taken as set, since the spec describes the adaptive/calibrating VAD as
present. -/
structure vad_config where
  calibFrames : Nat
  ratioQ : ℚ
  zcrMin : Nat
  zcrMax : Nat
  minSpeechFrames : Nat
  smoothAlpha : ℚ
  noiseAlpha : ℚ
  initThresh : ℚ
  deriving Repr, DecidableEq

/-- `vad_context_t` (`audio_process.h:1276-1295`). -/
structure vad_context where
  noise_floor : ℚ
  energy_threshold : ℚ
  smoothed_energy : ℚ
  speech_frame_count : Nat
  silence_frame_count : Nat
  calibration_count : Nat
  calibrated : Bool
  last_zcr : Nat
  last_energy : ℚ
  deriving Repr, DecidableEq

/-- `vad_init` (`audio_process.h:1607-1619`). -/
def vad_init (cfg : vad_config) : vad_context :=
  { noise_floor := cfg.initThresh
    energy_threshold := cfg.initThresh
    smoothed_energy := 0
    speech_frame_count := 0
    silence_frame_count := 0
    calibration_count := 0
    calibrated := false
    last_zcr := 0
    last_energy := 0 }

/-- `audio_calculate_energy` (`audio_process.h:1790-1803`).  The C returns
0 for a null frame or null buffer, otherwise computes
`sum((buffer[i] >> 8)^2) / size`.  When `size = 0` that division has a zero
divisor (undefined behaviour in C), modelled as `none`. -/
def audio_calculate_energy (frame : Option audio_frame) : Option Nat :=
  match frame with
  | none => some 0
  | some f =>
    match f.buffer with
    | none => some 0
    | some l =>
      if f.size = 0 then none
      else
        some ((((l.take f.size).map
          (fun x => (asr8 x * asr8 x).toNat)).sum) / f.size)

/-- Sign of a sample as computed by `vad_calculate_zcr`:
`(x >= 0) ? 1 : -1`. -/
def vad_sign (x : Int) : Int := if 0 ≤ x then 1 else -1

/-- Sign-change count of `vad_calculate_zcr`'s loop, given the previous
sign and the remaining samples. -/
def zcr_count : Int → List Int → Nat
  | _, [] => 0
  | prev, y :: ys =>
      (if vad_sign y ≠ prev then 1 else 0) + zcr_count (vad_sign y) ys

/-- `vad_calculate_zcr` (`audio_process.h:1628-1647`): returns 0 for a null
frame, a null buffer, or fewer than 2 samples; otherwise counts sign
changes across `buffer[0 .. size)`. -/
def vad_calculate_zcr (frame : Option audio_frame) : Nat :=
  match frame with
  | none => 0
  | some f =>
    match f.buffer with
    | none => 0
    | some l =>
      if f.size < 2 then 0
      else
        match l with
        | [] => 0
        | x :: xs => zcr_count (vad_sign x) (xs.take (f.size - 1))

/-- `vad_update_noise_floor` (`audio_process.h:1653-1701`), with
`VAD_ADAPTIVE_ENABLED` set. -/
def vad_update_noise_floor (cfg : vad_config) (vad : vad_context)
    (energy : ℚ) : vad_context :=
  if vad.calibrated = false then
    let c := vad.calibration_count + 1
    let nf :=
      if c = 1 then energy
      else vad.noise_floor * (9 / 10 : ℚ) + energy * (1 / 10 : ℚ)
    if cfg.calibFrames ≤ c then
      { vad with
          calibration_count := c
          noise_floor := nf
          calibrated := true
          energy_threshold := nf * cfg.ratioQ }
    else
      { vad with calibration_count := c, noise_floor := nf }
  else
    if energy < vad.energy_threshold * (1 / 2 : ℚ) then
      let nf := vad.noise_floor * (1 - cfg.noiseAlpha) + energy * cfg.noiseAlpha
      { vad with
          noise_floor := nf
          energy_threshold := nf * cfg.ratioQ }
    else vad

/-- `vad_detect_speech_enhanced` (`audio_process.h:1707-1785`).  Returns
`none` when the energy computation hits its zero divisor; otherwise the
updated VAD context and the per-frame decision.  The static debug print
counter is omitted (printing only). -/
def vad_detect_speech_enhanced (cfg : vad_config) (vad : vad_context)
    (frame : Option audio_frame) : Option (vad_context × Bool) :=
  match audio_calculate_energy frame with
  | none => none
  | some e =>
    let energy : ℚ := (e : ℚ)
    let sm := vad.smoothed_energy * (1 - cfg.smoothAlpha) + energy * cfg.smoothAlpha
    let zcr := vad_calculate_zcr frame
    let vad1 := { vad with smoothed_energy := sm, last_zcr := zcr,
                           last_energy := sm }
    if vad1.calibrated = false then
      some (vad_update_noise_floor cfg vad1 energy, false)
    else
      let energy_ok : Bool := decide (vad1.energy_threshold < sm)
      let zcr_ok : Bool := decide (cfg.zcrMin ≤ zcr) && decide (zcr ≤ cfg.zcrMax)
      let is_speech := energy_ok && zcr_ok
      let vad2 :=
        if is_speech then
          { vad1 with speech_frame_count := vad1.speech_frame_count + 1
                      silence_frame_count := 0 }
        else
          let v := { vad1 with silence_frame_count := vad1.silence_frame_count + 1
                               speech_frame_count := 0 }
          if 10 < v.silence_frame_count then vad_update_noise_floor cfg v energy
          else v
      some (vad2, decide (cfg.minSpeechFrames ≤ vad2.speech_frame_count))

/-- Feeding a list of frames through the VAD in order, collecting the
per-frame decisions; `none` as soon as any step is undefined. -/
def vad_run (cfg : vad_config) (vad : vad_context) :
    List (Option audio_frame) → Option (vad_context × List Bool)
  | [] => some (vad, [])
  | f :: fs =>
    match vad_detect_speech_enhanced cfg vad f with
    | none => none
    | some (v', b) =>
      match vad_run cfg v' fs with
      | none => none
      | some (v'', bs) => some (v'', b :: bs)

/-! ## Recording state machine (`audio_process_thread_entry`,
`src/SAI/audio_process.h:1446-1591`) -/

inductive audio_state where
  | AUDIO_STATE_IDLE
  | AUDIO_STATE_DETECTING
  | AUDIO_STATE_RECORDING
  | AUDIO_STATE_PROCESSING
  deriving Repr, DecidableEq

/-- `audio_recording_t` (`audio_process.h:33-40`): the buffer contents are
the `size` valid samples; `size` and `capacity` are kept as in the
struct. -/
structure audio_recording where
  data : List Int
  size : Nat
  capacity : Nat
  sample_rate : Nat
  start_time : Nat
  end_time : Nat
  deriving Repr, DecidableEq

/-- `audio_process_ctx_t` (`audio_process.h:1261-1273`), restricted to the
fields the locked state-machine switch touches.  `feeds` records the
invocations of the user callback (`ctx->callback(&ctx->recording)`), each
entry a snapshot of the delivered buffer contents and sample count —
the C callback is `stt_manager`'s feed, so `feeds.length` is the feed call
count. -/
structure audio_process_ctx where
  state : audio_state
  recording : audio_recording
  vad_hangover_count : Nat
  stats_speech_detected : Nat
  stats_total_duration_ms : Nat
  feeds : List (List Int × Nat)
  deriving Repr, DecidableEq

/-- Modelled from the spec: `VAD_MIN_RECORD_MS` (the minimum-duration
threshold of §4.4, "e.g. 300–500 ms") and `RT_TICK_PER_SECOND` (the
RT-Thread tick rate) are referenced by `src/SAI/audio_process.h` but
defined outside `src/`; they are kept as parameters. -/
structure proc_params where
  min_record_ms : Nat
  tick_per_second : Nat
  deriving Repr, DecidableEq

/-- The duration computation of the finalize path
(`audio_process.h:1547`). -/
def record_duration_ms (p : proc_params) (start_t end_t : Nat) : Nat :=
  (end_t - start_t) * 1000 / p.tick_per_second

/-- Appending one frame to the recording buffer (the `rt_memcpy` plus
`size` bump common to all three append sites). -/
def recording_append (r : audio_recording) (frame : audio_frame) :
    audio_recording :=
  { r with data := r.data ++ frame.samples, size := r.size + frame.size }

/-- The finalize path (`finish_recording`, `audio_process.h:1543-1573`):
record the end timestamp; a recording below the minimum duration is
discarded silently, otherwise it is delivered through the callback; either
way the machine returns to Idle with the fill length reset. -/
def finish_recording (p : proc_params) (ctx : audio_process_ctx)
    (now : Nat) : audio_process_ctx :=
  let rec1 := { ctx.recording with end_time := now }
  let duration_ms := record_duration_ms p rec1.start_time rec1.end_time
  if duration_ms < p.min_record_ms then
    { ctx with state := audio_state.AUDIO_STATE_IDLE
               recording := { rec1 with size := 0, data := [] } }
  else
    { ctx with
        state := audio_state.AUDIO_STATE_IDLE
        recording := { rec1 with size := 0, data := [] }
        stats_total_duration_ms := ctx.stats_total_duration_ms + duration_ms
        stats_speech_detected := ctx.stats_speech_detected + 1
        feeds := ctx.feeds ++ [(rec1.data, rec1.size)] }

/-- One iteration of the locked switch in `audio_process_thread_entry`
(`audio_process.h:1480-1579`), given the VAD decision for the frame and the
current tick. -/
def audio_process_step (p : proc_params) (ctx : audio_process_ctx)
    (speech_detected : Bool) (frame : audio_frame) (now : Nat) :
    audio_process_ctx :=
  match ctx.state with
  | audio_state.AUDIO_STATE_IDLE =>
    if speech_detected then
      let rec0 := { ctx.recording with size := 0, data := [], start_time := now }
      let rec1 :=
        if rec0.size + frame.size ≤ rec0.capacity then recording_append rec0 frame
        else rec0
      { ctx with state := audio_state.AUDIO_STATE_RECORDING
                 recording := rec1
                 vad_hangover_count := VAD_HANGOVER_FRAMES }
    else ctx
  | audio_state.AUDIO_STATE_RECORDING =>
    if speech_detected then
      if ctx.recording.size + frame.size ≤ ctx.recording.capacity then
        { ctx with recording := recording_append ctx.recording frame
                   vad_hangover_count := VAD_HANGOVER_FRAMES }
      else
        finish_recording p { ctx with vad_hangover_count := VAD_HANGOVER_FRAMES } now
    else
      if 0 < ctx.vad_hangover_count then
        let ctx1 := { ctx with vad_hangover_count := ctx.vad_hangover_count - 1 }
        if ctx1.recording.size + frame.size ≤ ctx1.recording.capacity then
          { ctx1 with recording := recording_append ctx1.recording frame }
        else ctx1
      else
        finish_recording p ctx now
  | _ => ctx

/-- Iterating the state machine over `(speech, frame, now)` inputs. -/
def audio_process_run (p : proc_params) (ctx : audio_process_ctx)
    (inputs : List (Bool × audio_frame × Nat)) : audio_process_ctx :=
  inputs.foldl (fun c i => audio_process_step p c i.1 i.2.1 i.2.2) ctx

/-- The context set up by `audio_process_init`
(`audio_process.h:1311-1371`): state Idle, fill length 0, capacity
`INMP441_SAMPLE_RATE * 3 / 2` samples. -/
def audio_process_init_ctx : audio_process_ctx :=
  { state := audio_state.AUDIO_STATE_IDLE
    recording :=
      { data := []
        size := 0
        capacity := INMP441_SAMPLE_RATE * 3 / 2
        sample_rate := INMP441_SAMPLE_RATE
        start_time := 0
        end_time := 0 }
    vad_hangover_count := 0
    stats_speech_detected := 0
    stats_total_duration_ms := 0
    feeds := [] }

/-! ## Concrete fixtures used by witnesses and counterexamples -/

def cex_params : proc_params := { min_record_ms := 300, tick_per_second := 1000 }

def cex_frame : audio_frame := { buffer := some [1, 2], size := 2 }

/-- A recording context mid-hangover whose buffer cannot take the next
frame: `size = 3`, `capacity = 4`, incoming frame of 2 samples. -/
def cex_ctx : audio_process_ctx :=
  { state := audio_state.AUDIO_STATE_RECORDING
    recording :=
      { data := [0, 0, 0], size := 3, capacity := 4
        sample_rate := INMP441_SAMPLE_RATE, start_time := 0, end_time := 0 }
    vad_hangover_count := 5
    stats_speech_detected := 0
    stats_total_duration_ms := 0
    feeds := [] }

def wit_cfg : vad_config :=
  { calibFrames := 2, ratioQ := 2, zcrMin := 1, zcrMax := 100
    minSpeechFrames := 2, smoothAlpha := 3 / 10, noiseAlpha := 1 / 20
    initThresh := 1000 }

def wit_frame : audio_frame := { buffer := some [100, -100], size := 2 }

def wit_vad_cal : vad_context := { vad_init wit_cfg with calibrated := true }

def wit_stt : stt_manager_ctx :=
  { running := true, state := stt_state.STT_STATE_IDLE, pcm_ptr := none
    pcm_samples := 0, data_ready := false, mbox := [] }

def wit_dev : inmp441_device :=
  { is_initialized := true, is_running := true, frames := [], write_idx := 0
    read_idx := 0, frame_count := 4, overrun_count := 0, total_frames := 4
    dma_errors := 0, buffer_sem := 0 }

def wit_rec_ctx : audio_process_ctx :=
  { state := audio_state.AUDIO_STATE_RECORDING
    recording :=
      { data := [], size := 0, capacity := 100
        sample_rate := INMP441_SAMPLE_RATE, start_time := 0, end_time := 0 }
    vad_hangover_count := VAD_HANGOVER_FRAMES
    stats_speech_detected := 0
    stats_total_duration_ms := 0
    feeds := [] }

def wit_idle_ctx : audio_process_ctx :=
  { wit_rec_ctx with state := audio_state.AUDIO_STATE_IDLE
                     vad_hangover_count := 0 }

def wit_silent_frame : audio_frame := { buffer := some [1], size := 1 }

def wit_inputs : List (audio_frame × Nat) :=
  List.replicate VAD_HANGOVER_FRAMES (wit_silent_frame, 5)

/-! # Theorems -/

/-! ## Shared helper lemmas -/

/-- Behaviour of `stt_manager_feed_recording` on a running manager: the
stored pointer/length are overwritten unconditionally, `data_ready` is set,
and the mailbox receives the wake-up message exactly when the state is
Idle. -/
theorem stt_feed_spec (ctx : stt_manager_ctx) (p : Option Nat) (n r : Nat)
    (h : ctx.running = true) :
    stt_manager_feed_recording ctx p n r =
      { ctx with
          pcm_ptr := p, pcm_samples := n, data_ready := true
          mbox :=
            if ctx.state = stt_state.STT_STATE_IDLE then
              rt_mb_send ctx.mbox STT_MSG_NEW_RECORDING
            else ctx.mbox } := by
  by_cases hs : ctx.state = stt_state.STT_STATE_IDLE <;>
    simp [stt_manager_feed_recording, h, hs]

/-- On a full ring with the producer running, one completion-callback push
only bumps the overrun counter. -/
theorem push_full (dev : inmp441_device) (src : List Int) (n now : Nat)
    (hrun : dev.is_running = true)
    (hfull : AUDIO_BUFFER_COUNT ≤ dev.frame_count) :
    process_dma_data dev src n now =
      { dev with overrun_count := dev.overrun_count + 1 } := by
  simp [process_dma_data, hrun, hfull]

/-- Iterated pushes against a full ring with a stalled consumer: the
overrun counter rises by exactly the number of pushes and nothing else
changes. -/
theorem push_run_full (pushes : List (List Int × Nat × Nat))
    (dev : inmp441_device) (hrun : dev.is_running = true)
    (hfull : AUDIO_BUFFER_COUNT ≤ dev.frame_count) :
    process_dma_run dev pushes =
      { dev with overrun_count := dev.overrun_count + pushes.length } := by
  induction pushes generalizing dev with
  | nil => simp [process_dma_run]
  | cons hd tl ih =>
    have h1 : process_dma_data dev hd.1 hd.2.1 hd.2.2 =
        { dev with overrun_count := dev.overrun_count + 1 } :=
      push_full dev hd.1 hd.2.1 hd.2.2 hrun hfull
    have h2 := ih { dev with overrun_count := dev.overrun_count + 1 }
      (by simpa using hrun) (by simpa using hfull)
    simp only [process_dma_run, List.foldl_cons] at *
    rw [h1, h2]
    simp [Nat.add_assoc, Nat.add_comm 1 tl.length]

/-! ## C1 — feed is last-writer-wins; notification iff Idle -/

/-- C1: while the manager is running, `stt_manager_feed_recording`
unconditionally overwrites the stored recording pointer and sample count
and sets the data-ready flag, so after two feeds in a row the consumer
observes exactly the second recording's pointer and length; and a wake-up
notification is posted to the mailbox if and only if the manager's state is
Idle at the time of the call. -/
theorem c1_feed_last_writer_wins
    (ctx : stt_manager_ctx) (p1 n1 r1 p2 n2 r2 : Nat)
    (hrun : ctx.running = true)
    (ctx3 : stt_manager_ctx) (p3 : Option Nat) (n3 r3 : Nat)
    (hrun3 : ctx3.running = true) (hroom3 : ctx3.mbox.length < 4) :
    (stt_manager_feed_recording (stt_manager_feed_recording ctx (some p1) n1 r1)
        (some p2) n2 r2).pcm_ptr = some p2
    ∧ (stt_manager_feed_recording (stt_manager_feed_recording ctx (some p1) n1 r1)
        (some p2) n2 r2).pcm_samples = n2
    ∧ (stt_manager_feed_recording (stt_manager_feed_recording ctx (some p1) n1 r1)
        (some p2) n2 r2).data_ready = true
    ∧ stt_consumer_observe
        (stt_manager_feed_recording (stt_manager_feed_recording ctx (some p1) n1 r1)
          (some p2) n2 r2) = some (p2, n2)
    ∧ ((stt_manager_feed_recording ctx3 p3 n3 r3).mbox
          = ctx3.mbox ++ [STT_MSG_NEW_RECORDING]
        ↔ ctx3.state = stt_state.STT_STATE_IDLE)
    ∧ (ctx3.state ≠ stt_state.STT_STATE_IDLE →
        (stt_manager_feed_recording ctx3 p3 n3 r3).mbox = ctx3.mbox) := by
  have h1 := stt_feed_spec ctx (some p1) n1 r1 hrun
  have hrun' : (stt_manager_feed_recording ctx (some p1) n1 r1).running = true := by
    rw [h1]; exact hrun
  have h2 := stt_feed_spec (stt_manager_feed_recording ctx (some p1) n1 r1)
    (some p2) n2 r2 hrun'
  have h3 := stt_feed_spec ctx3 p3 n3 r3 hrun3
  refine ⟨?_, ?_, ?_, ?_, ?_, ?_⟩
  · rw [h2]
  · rw [h2]
  · rw [h2]
  · rw [h2]; simp [stt_consumer_observe]
  · rw [h3]
    by_cases hs : ctx3.state = stt_state.STT_STATE_IDLE
    · simp [hs, rt_mb_send, hroom3]
    · simp only [hs, if_false, iff_false]
      intro hm
      have := congrArg List.length hm
      simp at this
  · intro hs
    rw [h3]
    simp [hs]

/-- C1 witness: a concrete running Idle manager, two successive feeds. -/
theorem c1_witness :
    wit_stt.running = true ∧ wit_stt.mbox.length < 4 ∧
    ((stt_manager_feed_recording (stt_manager_feed_recording wit_stt (some 7) 11 16000)
        (some 8) 22 16000).pcm_ptr = some 8
      ∧ (stt_manager_feed_recording (stt_manager_feed_recording wit_stt (some 7) 11 16000)
          (some 8) 22 16000).pcm_samples = 22
      ∧ (stt_manager_feed_recording (stt_manager_feed_recording wit_stt (some 7) 11 16000)
          (some 8) 22 16000).data_ready = true
      ∧ stt_consumer_observe
          (stt_manager_feed_recording (stt_manager_feed_recording wit_stt (some 7) 11 16000)
            (some 8) 22 16000) = some (8, 22)
      ∧ ((stt_manager_feed_recording wit_stt (some 9) 5 16000).mbox
            = wit_stt.mbox ++ [STT_MSG_NEW_RECORDING]
          ↔ wit_stt.state = stt_state.STT_STATE_IDLE)
      ∧ (wit_stt.state ≠ stt_state.STT_STATE_IDLE →
          (stt_manager_feed_recording wit_stt (some 9) 5 16000).mbox = wit_stt.mbox)) :=
  ⟨by decide, by decide,
    c1_feed_last_writer_wins wit_stt 7 11 16000 8 22 16000 (by decide)
      wit_stt (some 9) 5 16000 (by decide) (by decide)⟩

/-! ## C8 — overrun counting on a full frame ring -/

/-- C8: with the ring already holding `AUDIO_BUFFER_COUNT` frames and the
consumer stalled, each completion-callback push increments the overrun
counter by exactly one and leaves the ring (write index, frame count,
stored frames, read index) and the semaphore untouched; `k` pushes beyond
the queue depth raise the overrun counter by exactly `k`. -/
theorem c8_overrun_exact
    (dev : inmp441_device) (src : List Int) (n now : Nat)
    (pushes : List (List Int × Nat × Nat))
    (hrun : dev.is_running = true)
    (hfull : dev.frame_count = AUDIO_BUFFER_COUNT) :
    (process_dma_data dev src n now).overrun_count = dev.overrun_count + 1
    ∧ (process_dma_data dev src n now).write_idx = dev.write_idx
    ∧ (process_dma_data dev src n now).read_idx = dev.read_idx
    ∧ (process_dma_data dev src n now).frame_count = dev.frame_count
    ∧ (process_dma_data dev src n now).frames = dev.frames
    ∧ (process_dma_data dev src n now).total_frames = dev.total_frames
    ∧ (process_dma_data dev src n now).buffer_sem = dev.buffer_sem
    ∧ (process_dma_run dev pushes).overrun_count
        = dev.overrun_count + pushes.length
    ∧ (process_dma_run dev pushes).frames = dev.frames
    ∧ (process_dma_run dev pushes).frame_count = dev.frame_count := by
  have hge : AUDIO_BUFFER_COUNT ≤ dev.frame_count := le_of_eq hfull.symm
  have h1 := push_full dev src n now hrun hge
  have h2 := push_run_full pushes dev hrun hge
  rw [h1, h2]
  simp

/-- C8 witness: a concrete full ring, three excess pushes. -/
theorem c8_witness :
    wit_dev.is_running = true ∧ wit_dev.frame_count = AUDIO_BUFFER_COUNT ∧
    ((process_dma_data wit_dev [1, 2] 2 0).overrun_count = wit_dev.overrun_count + 1
      ∧ (process_dma_data wit_dev [1, 2] 2 0).write_idx = wit_dev.write_idx
      ∧ (process_dma_data wit_dev [1, 2] 2 0).read_idx = wit_dev.read_idx
      ∧ (process_dma_data wit_dev [1, 2] 2 0).frame_count = wit_dev.frame_count
      ∧ (process_dma_data wit_dev [1, 2] 2 0).frames = wit_dev.frames
      ∧ (process_dma_data wit_dev [1, 2] 2 0).total_frames = wit_dev.total_frames
      ∧ (process_dma_data wit_dev [1, 2] 2 0).buffer_sem = wit_dev.buffer_sem
      ∧ (process_dma_run wit_dev [([1], 1, 0), ([2], 1, 1), ([3], 1, 2)]).overrun_count
          = wit_dev.overrun_count + [([1], 1, 0), ([2], 1, 1), ([3], 1, 2)].length
      ∧ (process_dma_run wit_dev [([1], 1, 0), ([2], 1, 1), ([3], 1, 2)]).frames
          = wit_dev.frames
      ∧ (process_dma_run wit_dev [([1], 1, 0), ([2], 1, 1), ([3], 1, 2)]).frame_count
          = wit_dev.frame_count) :=
  ⟨by decide, by decide,
    c8_overrun_exact wit_dev [1, 2] 2 0 [([1], 1, 0), ([2], 1, 1), ([3], 1, 2)]
      (by decide) (by decide)⟩

/-! ## C9 — start/stop idempotence -/

/-- C9: `inmp441_stop` on a non-running device returns `RT_EOK` and changes
nothing; `inmp441_start` on an (initialized) already-running device returns
`RT_EOK` and changes nothing; and each operation applied twice in
succession equals the operation applied once. -/
theorem c9_start_stop_idempotent
    (devs : inmp441_device) (hs : devs.is_running = false)
    (devr : inmp441_device) (hr : devr.is_running = true)
    (hi : devr.is_initialized = true)
    (dev : inmp441_device) (halOk : Bool) :
    inmp441_stop devs = (devs, RT_EOK)
    ∧ inmp441_start devr halOk = (devr, RT_EOK)
    ∧ inmp441_stop (inmp441_stop dev).1 = inmp441_stop dev
    ∧ inmp441_start (inmp441_start dev halOk).1 halOk
        = inmp441_start dev halOk := by
  refine ⟨?_, ?_, ?_, ?_⟩
  · simp [inmp441_stop, hs]
  · simp [inmp441_start, hi, hr]
  · by_cases h : dev.is_running <;> simp [inmp441_stop, h]
  · by_cases h1 : dev.is_initialized
    · by_cases h2 : dev.is_running
      · simp [inmp441_start, h1, h2]
      · by_cases h3 : halOk <;> simp [inmp441_start, h1, h2, h3]
    · simp [inmp441_start, h1]

/-- C9 witness: concrete running and stopped devices. -/
theorem c9_witness :
    ({ wit_dev with is_running := false } : inmp441_device).is_running = false ∧
    wit_dev.is_running = true ∧ wit_dev.is_initialized = true ∧
    (inmp441_stop { wit_dev with is_running := false }
        = ({ wit_dev with is_running := false }, RT_EOK)
      ∧ inmp441_start wit_dev true = (wit_dev, RT_EOK)
      ∧ inmp441_stop (inmp441_stop wit_dev).1 = inmp441_stop wit_dev
      ∧ inmp441_start (inmp441_start wit_dev true).1 true
          = inmp441_start wit_dev true) :=
  ⟨by decide, by decide, by decide,
    c9_start_stop_idempotent { wit_dev with is_running := false } (by decide)
      wit_dev (by decide) (by decide) wit_dev true⟩

/-- Facts about the finalize path shared by several claims: it always
returns the machine to Idle with fill length zero, keeps the capacity, and
on a too-short recording does not invoke the callback. -/
theorem finish_recording_spec (p : proc_params) (ctx : audio_process_ctx)
    (now : Nat) :
    (finish_recording p ctx now).state = audio_state.AUDIO_STATE_IDLE
    ∧ (finish_recording p ctx now).recording.size = 0
    ∧ (finish_recording p ctx now).recording.capacity = ctx.recording.capacity
    ∧ (record_duration_ms p ctx.recording.start_time now < p.min_record_ms →
        (finish_recording p ctx now).feeds = ctx.feeds) := by
  unfold finish_recording
  by_cases hd : record_duration_ms p ctx.recording.start_time now
      < p.min_record_ms <;> simp [hd]

/-- A VAD-negative frame arriving in the Recording state with an expired
hangover counter triggers the finalize path. -/
theorem step_finalize (p : proc_params) (ctx : audio_process_ctx)
    (fend : audio_frame) (tend : Nat)
    (h1 : ctx.state = audio_state.AUDIO_STATE_RECORDING)
    (h2 : ctx.vad_hangover_count = 0) :
    audio_process_step p ctx false fend tend = finish_recording p ctx tend := by
  simp [audio_process_step, h1, h2]

/-! ## C10 — recording fill length never exceeds capacity -/

/-- C10: the invariant `recording.size ≤ recording.capacity` is established
by `audio_process_init` and preserved by every step of the processing
thread: every append path checks that the frame fits before copying, and
both finalization and discard reset the fill length to zero. -/
theorem c10_size_le_capacity
    (p : proc_params) (ctx : audio_process_ctx) (speech : Bool)
    (frame : audio_frame) (now : Nat)
    (hinv : ctx.recording.size ≤ ctx.recording.capacity) :
    audio_process_init_ctx.recording.size
        ≤ audio_process_init_ctx.recording.capacity
    ∧ (audio_process_step p ctx speech frame now).recording.size
        ≤ (audio_process_step p ctx speech frame now).recording.capacity := by
  refine ⟨Nat.zero_le _, ?_⟩
  cases hst : ctx.state
  case AUDIO_STATE_IDLE =>
    cases speech
    · simpa [audio_process_step, hst] using hinv
    · by_cases hfit : frame.size ≤ ctx.recording.capacity <;>
        simp [audio_process_step, hst, recording_append, hfit]
  case AUDIO_STATE_DETECTING =>
    simpa [audio_process_step, hst] using hinv
  case AUDIO_STATE_RECORDING =>
    cases speech
    · by_cases hh : 0 < ctx.vad_hangover_count
      · by_cases hfit : ctx.recording.size + frame.size ≤ ctx.recording.capacity
        · simp [audio_process_step, hst, hh, hfit, recording_append]
        · simpa [audio_process_step, hst, hh, hfit] using hinv
      · have h := finish_recording_spec p ctx now
        simp only [audio_process_step, hst, Bool.false_eq_true, if_false, hh]
        rw [h.2.1, h.2.2.1]
        exact Nat.zero_le _
    · by_cases hfit : ctx.recording.size + frame.size ≤ ctx.recording.capacity
      · simp [audio_process_step, hst, hfit, recording_append]
      · have h := finish_recording_spec p
          { ctx with state := audio_state.AUDIO_STATE_RECORDING
                     vad_hangover_count := VAD_HANGOVER_FRAMES } now
        simp only [audio_process_step, hst, if_true, hfit, if_false]
        rw [h.2.1, h.2.2.1]
        exact Nat.zero_le _
  case AUDIO_STATE_PROCESSING =>
    simpa [audio_process_step, hst] using hinv

/-- C10 witness: a concrete in-invariant context and one step. -/
theorem c10_witness :
    wit_rec_ctx.recording.size ≤ wit_rec_ctx.recording.capacity ∧
    (audio_process_init_ctx.recording.size
        ≤ audio_process_init_ctx.recording.capacity
      ∧ (audio_process_step cex_params wit_rec_ctx true wit_frame 3).recording.size
          ≤ (audio_process_step cex_params wit_rec_ctx true wit_frame 3).recording.capacity) :=
  ⟨by decide,
    c10_size_le_capacity cex_params wit_rec_ctx true wit_frame 3 (by decide)⟩

/-! ## C4 — buffer-full handling during Recording -/

/-- C4 counterexample: in the Recording state with a nonzero hangover
counter, a VAD-negative frame that would overflow the buffer does NOT
force-finalize the recording — the machine stays in Recording (the frame is
silently dropped), contradicting the claim that every branch of the
Recording state treats buffer-full as end-of-utterance. -/
theorem c4_counterexample :
    cex_ctx.state = audio_state.AUDIO_STATE_RECORDING
    ∧ 0 < cex_ctx.vad_hangover_count
    ∧ cex_ctx.recording.capacity < cex_ctx.recording.size + cex_frame.size
    ∧ (audio_process_step cex_params cex_ctx false cex_frame 100).state
        = audio_state.AUDIO_STATE_RECORDING
    ∧ (audio_process_step cex_params cex_ctx false cex_frame 100).state
        ≠ audio_state.AUDIO_STATE_IDLE := by
  decide

/-- C4 (amended): a VAD-positive frame that would exceed the buffer's
capacity force-finalizes the recording immediately regardless of the
hangover counter (the machine returns to Idle with fill length zero); a
VAD-negative frame during hangover that would exceed capacity is not
appended — the recording's contents stay unchanged, the hangover counter is
decremented, and the machine stays in Recording. -/
theorem c4_buffer_full_amended
    (p : proc_params) (ctx : audio_process_ctx) (frame : audio_frame)
    (now : Nat)
    (hst : ctx.state = audio_state.AUDIO_STATE_RECORDING)
    (hover : ctx.recording.capacity < ctx.recording.size + frame.size)
    (hhang : 0 < ctx.vad_hangover_count) :
    (audio_process_step p ctx true frame now).state
        = audio_state.AUDIO_STATE_IDLE
    ∧ (audio_process_step p ctx true frame now).recording.size = 0
    ∧ (audio_process_step p ctx false frame now).state
        = audio_state.AUDIO_STATE_RECORDING
    ∧ (audio_process_step p ctx false frame now).recording = ctx.recording
    ∧ (audio_process_step p ctx false frame now).vad_hangover_count
        = ctx.vad_hangover_count - 1
    ∧ (audio_process_step p ctx false frame now).feeds = ctx.feeds := by
  have hfit : ¬ (ctx.recording.size + frame.size ≤ ctx.recording.capacity) :=
    not_le_of_lt hover
  have hfin := finish_recording_spec p
    { ctx with state := audio_state.AUDIO_STATE_RECORDING
               vad_hangover_count := VAD_HANGOVER_FRAMES } now
  refine ⟨?_, ?_, ?_, ?_, ?_, ?_⟩
  · simpa [audio_process_step, hst, hfit] using hfin.1
  · simpa [audio_process_step, hst, hfit] using hfin.2.1
  · simp [audio_process_step, hst, hhang, hfit]
  · simp [audio_process_step, hst, hhang, hfit]
  · simp [audio_process_step, hst, hhang, hfit]
  · simp [audio_process_step, hst, hhang, hfit]

/-- C4 amended witness: the counterexample context, both VAD branches. -/
theorem c4_witness :
    cex_ctx.state = audio_state.AUDIO_STATE_RECORDING ∧
    cex_ctx.recording.capacity < cex_ctx.recording.size + cex_frame.size ∧
    0 < cex_ctx.vad_hangover_count ∧
    ((audio_process_step cex_params cex_ctx true cex_frame 100).state
        = audio_state.AUDIO_STATE_IDLE
      ∧ (audio_process_step cex_params cex_ctx true cex_frame 100).recording.size = 0
      ∧ (audio_process_step cex_params cex_ctx false cex_frame 100).state
          = audio_state.AUDIO_STATE_RECORDING
      ∧ (audio_process_step cex_params cex_ctx false cex_frame 100).recording
          = cex_ctx.recording
      ∧ (audio_process_step cex_params cex_ctx false cex_frame 100).vad_hangover_count
          = cex_ctx.vad_hangover_count - 1
      ∧ (audio_process_step cex_params cex_ctx false cex_frame 100).feeds
          = cex_ctx.feeds) :=
  ⟨by decide, by decide, by decide,
    c4_buffer_full_amended cex_params cex_ctx cex_frame 100 (by decide)
      (by decide) (by decide)⟩

/-! ## VAD helper lemmas -/

/-- `vad_update_noise_floor` never touches the consecutive-speech
counter in any of its branches. -/
theorem vad_update_speech_count (cfg : vad_config) (v : vad_context)
    (e : ℚ) :
    (vad_update_noise_floor cfg v e).speech_frame_count
      = v.speech_frame_count := by
  unfold vad_update_noise_floor
  by_cases hcal : v.calibrated = false
  · rw [if_pos hcal]
    by_cases h2 : cfg.calibFrames ≤ v.calibration_count + 1 <;> simp [h2]
  · rw [if_neg hcal]
    split <;> rfl

/-- During calibration, `vad_update_noise_floor` increments the
calibration counter, flags `calibrated` exactly when the counter reaches
the configured frame count, and then installs
`threshold = noise_floor * ratio`. -/
theorem vad_update_calibrating (cfg : vad_config) (v : vad_context)
    (e : ℚ) (h : v.calibrated = false) :
    (vad_update_noise_floor cfg v e).calibration_count
        = v.calibration_count + 1
    ∧ (vad_update_noise_floor cfg v e).calibrated
        = decide (cfg.calibFrames ≤ v.calibration_count + 1)
    ∧ (cfg.calibFrames ≤ v.calibration_count + 1 →
        (vad_update_noise_floor cfg v e).energy_threshold
          = (vad_update_noise_floor cfg v e).noise_floor * cfg.ratioQ) := by
  unfold vad_update_noise_floor
  by_cases hc : cfg.calibFrames ≤ v.calibration_count + 1 <;>
    simp [h, hc]

/-- One VAD step on an uncalibrated context: the decision is always
`false` and the calibration counter advances by one, flipping
`calibrated` exactly at the configured frame count. -/
theorem step_calibrating (cfg : vad_config) (v : vad_context)
    (f : Option audio_frame) (e : Nat)
    (hcal : v.calibrated = false) (he : audio_calculate_energy f = some e) :
    ∃ u, vad_detect_speech_enhanced cfg v f = some (u, false)
      ∧ u.calibration_count = v.calibration_count + 1
      ∧ u.calibrated = decide (cfg.calibFrames ≤ v.calibration_count + 1)
      ∧ (cfg.calibFrames ≤ v.calibration_count + 1 →
          u.energy_threshold = u.noise_floor * cfg.ratioQ) := by
  have hup := vad_update_calibrating cfg
    { v with
        smoothed_energy := v.smoothed_energy * (1 - cfg.smoothAlpha)
          + (e : ℚ) * cfg.smoothAlpha
        last_zcr := vad_calculate_zcr f
        last_energy := v.smoothed_energy * (1 - cfg.smoothAlpha)
          + (e : ℚ) * cfg.smoothAlpha }
    (e : ℚ) (by simpa using hcal)
  refine ⟨vad_update_noise_floor cfg
    { v with
        smoothed_energy := v.smoothed_energy * (1 - cfg.smoothAlpha)
          + (e : ℚ) * cfg.smoothAlpha
        last_zcr := vad_calculate_zcr f
        last_energy := v.smoothed_energy * (1 - cfg.smoothAlpha)
          + (e : ℚ) * cfg.smoothAlpha }
    (e : ℚ), ?_, ?_, ?_, ?_⟩
  · simp [vad_detect_speech_enhanced, he, hcal]
  · simpa using hup.1
  · simpa using hup.2.1
  · simpa using hup.2.2

/-- Running the VAD over frames that all stay within the calibration
budget: every decision is `false`, the calibration counter advances by the
number of frames, and `calibrated` flips exactly when the budget is
reached. -/
theorem calib_run_spec (cfg : vad_config) :
    ∀ (frames : List (Option audio_frame)) (v : vad_context),
      (∀ f ∈ frames, (audio_calculate_energy f).isSome) →
      v.calibrated = false →
      v.calibration_count + frames.length ≤ cfg.calibFrames →
      ∃ v', vad_run cfg v frames
            = some (v', List.replicate frames.length false)
        ∧ v'.calibration_count = v.calibration_count + frames.length
        ∧ (v.calibration_count + frames.length < cfg.calibFrames →
            v'.calibrated = false)
        ∧ (v.calibration_count + frames.length = cfg.calibFrames →
            1 ≤ frames.length →
            v'.calibrated = true
              ∧ v'.energy_threshold = v'.noise_floor * cfg.ratioQ) := by
  intro frames
  induction frames with
  | nil =>
    intro v _ hcal hle
    refine ⟨v, by simp [vad_run], by simp, fun _ => hcal, fun _ h1 => ?_⟩
    exact absurd h1 (by simp)
  | cons f fs ih =>
    intro v hwf hcal hle
    obtain ⟨e, he⟩ := Option.isSome_iff_exists.mp
      (hwf f (List.mem_cons_self f fs))
    obtain ⟨u, hdet, hucount, hucal, huthr⟩ :=
      step_calibrating cfg v f e hcal he
    simp only [List.length_cons] at hle ⊢
    by_cases hhit : cfg.calibFrames ≤ v.calibration_count + 1
    · -- the budget is hit on this frame, so no frames may remain
      have hc1 : v.calibration_count + 1 = cfg.calibFrames := by omega
      have hfs : fs = [] := by
        have : fs.length = 0 := by omega
        exact List.length_eq_zero.mp this
      subst hfs
      refine ⟨u, ?_, by simpa using hucount, ?_, ?_⟩
      · simp [vad_run, hdet, List.replicate_succ]
      · intro h1; exact absurd h1 (by omega)
      · intro _ _
        refine ⟨?_, huthr hhit⟩
        rw [hucal]; simpa using hhit
    · -- still calibrating after this frame
      have hucal' : u.calibrated = false := by
        rw [hucal]; simpa using hhit
      obtain ⟨v', hrun, hcount, hbelow, hat⟩ := ih u
        (fun g hg => hwf g (List.mem_cons_of_mem f hg)) hucal'
        (by omega)
      refine ⟨v', ?_, ?_, ?_, ?_⟩
      · simp [vad_run, hdet, hrun, List.replicate_succ]
      · rw [hcount, hucount]; omega
      · intro h1
        exact hbelow (by omega)
      · intro h1 _
        by_cases hfs : 1 ≤ fs.length
        · exact hat (by omega) hfs
        · exfalso; omega

/-! ## C2 / C3 — hangover behaviour and short-recording discard -/

/-- A run of VAD-negative frames whose count stays within the hangover
counter: the machine stays in Recording, every frame is appended, the
counter drops by the number of frames, and nothing else changes. -/
theorem silent_run_spec (p : proc_params) :
    ∀ (inputs : List (audio_frame × Nat)) (ctx : audio_process_ctx),
      ctx.state = audio_state.AUDIO_STATE_RECORDING →
      inputs.length ≤ ctx.vad_hangover_count →
      ctx.recording.size + (inputs.map (fun i => i.1.size)).sum
          ≤ ctx.recording.capacity →
      audio_process_run p ctx (inputs.map (fun i => (false, i.1, i.2))) =
        { ctx with
            recording :=
              { ctx.recording with
                  data := ctx.recording.data
                    ++ (inputs.map (fun i => i.1.samples)).flatten
                  size := ctx.recording.size
                    + (inputs.map (fun i => i.1.size)).sum }
            vad_hangover_count := ctx.vad_hangover_count - inputs.length } := by
  intro inputs
  induction inputs with
  | nil =>
    intro ctx hst _ _
    simp [audio_process_run]
  | cons hd tl ih =>
    intro ctx hst hlen hfit
    simp only [List.length_cons, List.map_cons, List.sum_cons,
      List.flatten_cons] at hlen hfit ⊢
    have hh : 0 < ctx.vad_hangover_count := by omega
    have hfit1 : ctx.recording.size + hd.1.size ≤ ctx.recording.capacity := by
      omega
    have hstep : audio_process_step p ctx false hd.1 hd.2
        = { ctx with
              recording := recording_append ctx.recording hd.1
              vad_hangover_count := ctx.vad_hangover_count - 1 } := by
      simp [audio_process_step, hst, hh, hfit1]
    have h2 := ih
      { ctx with
          recording := recording_append ctx.recording hd.1
          vad_hangover_count := ctx.vad_hangover_count - 1 }
      (by simpa using hst)
      (by simp; omega)
      (by simp [recording_append]; omega)
    simp only [audio_process_run, List.foldl_cons] at h2 ⊢
    rw [hstep, h2]
    simp [recording_append, List.append_assoc, Nat.add_assoc]
    omega

/-- C2: while Recording, a VAD-negative frame with a nonzero hangover
counter does not end the recording — the counter is decremented and the
frame is still appended; and starting from a just-refreshed hangover
counter (`VAD_HANGOVER_FRAMES = 10`, set by the last VAD-positive frame),
the machine is still Recording after any run of `VAD_HANGOVER_FRAMES`
silent frames (all appended), and the next silent frame finalizes the
recording — so a recording ends exactly `VAD_HANGOVER_FRAMES` appended
silent frames after the last VAD-positive frame. -/
theorem c2_hangover_exact
    (p : proc_params) (ctx : audio_process_ctx) (f : audio_frame)
    (now h : Nat)
    (ha1 : ctx.state = audio_state.AUDIO_STATE_RECORDING)
    (ha2 : ctx.vad_hangover_count = h + 1)
    (ha3 : ctx.recording.size + f.size ≤ ctx.recording.capacity)
    (ctxb : audio_process_ctx) (inputs : List (audio_frame × Nat))
    (fend : audio_frame) (tend : Nat)
    (hb1 : ctxb.state = audio_state.AUDIO_STATE_RECORDING)
    (hb2 : ctxb.vad_hangover_count = VAD_HANGOVER_FRAMES)
    (hb3 : inputs.length = VAD_HANGOVER_FRAMES)
    (hb4 : ctxb.recording.size + (inputs.map (fun i => i.1.size)).sum
        ≤ ctxb.recording.capacity) :
    (audio_process_step p ctx false f now).state
        = audio_state.AUDIO_STATE_RECORDING
    ∧ (audio_process_step p ctx false f now).vad_hangover_count = h
    ∧ (audio_process_step p ctx false f now).recording.data
        = ctx.recording.data ++ f.samples
    ∧ (audio_process_step p ctx false f now).recording.size
        = ctx.recording.size + f.size
    ∧ (audio_process_run p ctxb (inputs.map (fun i => (false, i.1, i.2)))).state
        = audio_state.AUDIO_STATE_RECORDING
    ∧ (audio_process_run p ctxb (inputs.map (fun i => (false, i.1, i.2)))).recording.data
        = ctxb.recording.data ++ (inputs.map (fun i => i.1.samples)).flatten
    ∧ (audio_process_run p ctxb (inputs.map (fun i => (false, i.1, i.2)))).vad_hangover_count
        = 0
    ∧ (audio_process_step p
        (audio_process_run p ctxb (inputs.map (fun i => (false, i.1, i.2))))
        false fend tend).state = audio_state.AUDIO_STATE_IDLE
    ∧ (audio_process_step p
        (audio_process_run p ctxb (inputs.map (fun i => (false, i.1, i.2))))
        false fend tend).recording.size = 0 := by
  have hh : 0 < ctx.vad_hangover_count := by omega
  have hrun := silent_run_spec p inputs ctxb hb1 (by omega)
    (by simpa using hb4)
  have hmidstate :
      (audio_process_run p ctxb (inputs.map (fun i => (false, i.1, i.2)))).state
        = audio_state.AUDIO_STATE_RECORDING := by
    rw [hrun]; simpa using hb1
  have hmidhang :
      (audio_process_run p ctxb (inputs.map (fun i => (false, i.1, i.2)))).vad_hangover_count
        = 0 := by
    rw [hrun]; simp [hb2, hb3]
  have hfin := finish_recording_spec p
    (audio_process_run p ctxb (inputs.map (fun i => (false, i.1, i.2)))) tend
  have hendstep : audio_process_step p
      (audio_process_run p ctxb (inputs.map (fun i => (false, i.1, i.2))))
      false fend tend
      = finish_recording p
          (audio_process_run p ctxb (inputs.map (fun i => (false, i.1, i.2)))) tend := by
    simp [audio_process_step, hmidstate, hmidhang]
  refine ⟨?_, ?_, ?_, ?_, hmidstate, ?_, hmidhang, ?_, ?_⟩
  · simp [audio_process_step, ha1, hh, ha3]
  · simp [audio_process_step, ha1, hh, ha3, ha2]
  · simp [audio_process_step, ha1, hh, ha3, recording_append]
  · simp [audio_process_step, ha1, hh, ha3, recording_append]
  · rw [hrun]
  · rw [hendstep]; exact hfin.1
  · rw [hendstep]; exact hfin.2.1

/-- C2 witness: a fresh Recording context, one silent frame, then a full
hangover run of ten silent frames and the finalizing eleventh. -/
theorem c2_witness :
    wit_rec_ctx.state = audio_state.AUDIO_STATE_RECORDING ∧
    wit_rec_ctx.vad_hangover_count = 9 + 1 ∧
    wit_inputs.length = VAD_HANGOVER_FRAMES ∧
    ((audio_process_step cex_params wit_rec_ctx false wit_silent_frame 3).state
        = audio_state.AUDIO_STATE_RECORDING
      ∧ (audio_process_step cex_params wit_rec_ctx false wit_silent_frame 3).vad_hangover_count = 9
      ∧ (audio_process_step cex_params wit_rec_ctx false wit_silent_frame 3).recording.data
          = wit_rec_ctx.recording.data ++ wit_silent_frame.samples
      ∧ (audio_process_step cex_params wit_rec_ctx false wit_silent_frame 3).recording.size
          = wit_rec_ctx.recording.size + wit_silent_frame.size
      ∧ (audio_process_run cex_params wit_rec_ctx
          (wit_inputs.map (fun i => (false, i.1, i.2)))).state
          = audio_state.AUDIO_STATE_RECORDING
      ∧ (audio_process_run cex_params wit_rec_ctx
          (wit_inputs.map (fun i => (false, i.1, i.2)))).recording.data
          = wit_rec_ctx.recording.data ++ (wit_inputs.map (fun i => i.1.samples)).flatten
      ∧ (audio_process_run cex_params wit_rec_ctx
          (wit_inputs.map (fun i => (false, i.1, i.2)))).vad_hangover_count = 0
      ∧ (audio_process_step cex_params
          (audio_process_run cex_params wit_rec_ctx
            (wit_inputs.map (fun i => (false, i.1, i.2))))
          false wit_silent_frame 77).state = audio_state.AUDIO_STATE_IDLE
      ∧ (audio_process_step cex_params
          (audio_process_run cex_params wit_rec_ctx
            (wit_inputs.map (fun i => (false, i.1, i.2))))
          false wit_silent_frame 77).recording.size = 0) :=
  ⟨by decide, by decide, by decide,
    c2_hangover_exact cex_params wit_rec_ctx wit_silent_frame 3 9
      (by decide) (by decide) (by decide)
      wit_rec_ctx wit_inputs wit_silent_frame 77
      (by decide) (by decide) (by decide) (by decide)⟩

/-- C3: a burst that starts a recording from Idle and is immediately
silenced — one VAD-positive frame followed by `VAD_HANGOVER_FRAMES` silent
frames and the finalizing silent frame — whose computed duration is below
the minimum threshold is discarded silently: the machine returns to Idle,
the fill length is reset to zero, and the callback (hence
`stt_manager_feed_recording`) is never invoked. -/
theorem c3_short_recording_discarded
    (p : proc_params) (ctx : audio_process_ctx) (f0 : audio_frame) (t0 : Nat)
    (inputs : List (audio_frame × Nat)) (fend : audio_frame) (tend : Nat)
    (h0 : ctx.state = audio_state.AUDIO_STATE_IDLE)
    (hlen : inputs.length = VAD_HANGOVER_FRAMES)
    (hfit : f0.size + (inputs.map (fun i => i.1.size)).sum
        ≤ ctx.recording.capacity)
    (hshort : record_duration_ms p t0 tend < p.min_record_ms) :
    (audio_process_step p
        (audio_process_run p (audio_process_step p ctx true f0 t0)
          (inputs.map (fun i => (false, i.1, i.2))))
        false fend tend).feeds = ctx.feeds
    ∧ (audio_process_step p
        (audio_process_run p (audio_process_step p ctx true f0 t0)
          (inputs.map (fun i => (false, i.1, i.2))))
        false fend tend).state = audio_state.AUDIO_STATE_IDLE
    ∧ (audio_process_step p
        (audio_process_run p (audio_process_step p ctx true f0 t0)
          (inputs.map (fun i => (false, i.1, i.2))))
        false fend tend).recording.size = 0 := by
  have hfit0 : f0.size ≤ ctx.recording.capacity :=
    le_trans (Nat.le_add_right _ _) hfit
  have h1s : (audio_process_step p ctx true f0 t0).state
      = audio_state.AUDIO_STATE_RECORDING := by
    simp [audio_process_step, h0, hfit0]
  have h1h : (audio_process_step p ctx true f0 t0).vad_hangover_count
      = VAD_HANGOVER_FRAMES := by
    simp [audio_process_step, h0, hfit0]
  have h1size : (audio_process_step p ctx true f0 t0).recording.size
      = f0.size := by
    simp [audio_process_step, h0, hfit0, recording_append]
  have h1cap : (audio_process_step p ctx true f0 t0).recording.capacity
      = ctx.recording.capacity := by
    simp [audio_process_step, h0, hfit0, recording_append]
  have h1st : (audio_process_step p ctx true f0 t0).recording.start_time
      = t0 := by
    simp [audio_process_step, h0, hfit0, recording_append]
  have h1feeds : (audio_process_step p ctx true f0 t0).feeds = ctx.feeds := by
    simp [audio_process_step, h0, hfit0]
  have hrun := silent_run_spec p inputs (audio_process_step p ctx true f0 t0)
    h1s (by rw [h1h, hlen]) (by rw [h1size, h1cap]; exact hfit)
  have hmids : (audio_process_run p (audio_process_step p ctx true f0 t0)
      (inputs.map (fun i => (false, i.1, i.2)))).state
      = audio_state.AUDIO_STATE_RECORDING := by
    rw [hrun]; simpa using h1s
  have hmidh : (audio_process_run p (audio_process_step p ctx true f0 t0)
      (inputs.map (fun i => (false, i.1, i.2)))).vad_hangover_count = 0 := by
    rw [hrun]; simp [h1h, hlen]
  have hmidst : (audio_process_run p (audio_process_step p ctx true f0 t0)
      (inputs.map (fun i => (false, i.1, i.2)))).recording.start_time = t0 := by
    rw [hrun]; simpa using h1st
  have hmidfeeds : (audio_process_run p (audio_process_step p ctx true f0 t0)
      (inputs.map (fun i => (false, i.1, i.2)))).feeds = ctx.feeds := by
    rw [hrun]; simpa using h1feeds
  have hendstep : audio_process_step p
      (audio_process_run p (audio_process_step p ctx true f0 t0)
        (inputs.map (fun i => (false, i.1, i.2))))
      false fend tend
      = finish_recording p
          (audio_process_run p (audio_process_step p ctx true f0 t0)
            (inputs.map (fun i => (false, i.1, i.2)))) tend :=
    step_finalize p _ fend tend hmids hmidh
  have hfin := finish_recording_spec p
    (audio_process_run p (audio_process_step p ctx true f0 t0)
      (inputs.map (fun i => (false, i.1, i.2)))) tend
  have hdur : record_duration_ms p
      (audio_process_run p (audio_process_step p ctx true f0 t0)
        (inputs.map (fun i => (false, i.1, i.2)))).recording.start_time tend
      < p.min_record_ms := by
    rw [hmidst]; exact hshort
  refine ⟨?_, ?_, ?_⟩
  · rw [hendstep, hfin.2.2.2 hdur]; exact hmidfeeds
  · rw [hendstep]; exact hfin.1
  · rw [hendstep]; exact hfin.2.1

/-- C3 witness: a concrete short burst (one speech frame, ten hangover
frames, finalizing frame at tick 50 with a 300 ms minimum). -/
theorem c3_witness :
    wit_idle_ctx.state = audio_state.AUDIO_STATE_IDLE ∧
    record_duration_ms cex_params 0 50 < cex_params.min_record_ms ∧
    ((audio_process_step cex_params
        (audio_process_run cex_params
          (audio_process_step cex_params wit_idle_ctx true wit_frame 0)
          (wit_inputs.map (fun i => (false, i.1, i.2))))
        false wit_silent_frame 50).feeds = wit_idle_ctx.feeds
      ∧ (audio_process_step cex_params
          (audio_process_run cex_params
            (audio_process_step cex_params wit_idle_ctx true wit_frame 0)
            (wit_inputs.map (fun i => (false, i.1, i.2))))
          false wit_silent_frame 50).state = audio_state.AUDIO_STATE_IDLE
      ∧ (audio_process_step cex_params
          (audio_process_run cex_params
            (audio_process_step cex_params wit_idle_ctx true wit_frame 0)
            (wit_inputs.map (fun i => (false, i.1, i.2))))
          false wit_silent_frame 50).recording.size = 0) :=
  ⟨by decide, by decide,
    c3_short_recording_discarded cex_params wit_idle_ctx wit_frame 0
      wit_inputs wit_silent_frame 50 (by decide) (by decide) (by decide)
      (by decide)⟩

/-! ## C5 — calibration is count-bounded and emits no speech -/

/-- C5: for every sequence of frames (of defined energy),
`vad_detect_speech_enhanced` returns `false` on each of the first
`VAD_CALIBRATION_FRAMES` frames, calibration terminates after exactly that
count regardless of the frames' content (for any shorter run the
`calibrated` flag is still clear and the counter equals the number of
frames seen), and at that point `calibrated` is set and the threshold is
`noise_floor * VAD_THRESHOLD_RATIO`. -/
theorem c5_calibration_bounded
    (cfg : vad_config) (hN : 1 ≤ cfg.calibFrames)
    (frames : List (Option audio_frame))
    (hwf : ∀ f ∈ frames, (audio_calculate_energy f).isSome)
    (hlen : frames.length = cfg.calibFrames)
    (frames2 : List (Option audio_frame))
    (hwf2 : ∀ f ∈ frames2, (audio_calculate_energy f).isSome)
    (hlen2 : frames2.length < cfg.calibFrames) :
    (∃ v', vad_run cfg (vad_init cfg) frames
          = some (v', List.replicate cfg.calibFrames false)
      ∧ v'.calibrated = true
      ∧ v'.calibration_count = cfg.calibFrames
      ∧ v'.energy_threshold = v'.noise_floor * cfg.ratioQ)
    ∧ (∃ v2, vad_run cfg (vad_init cfg) frames2
          = some (v2, List.replicate frames2.length false)
      ∧ v2.calibrated = false
      ∧ v2.calibration_count = frames2.length) := by
  constructor
  · obtain ⟨v', hrun, hcount, hbelow, hat⟩ :=
      calib_run_spec cfg frames (vad_init cfg) hwf rfl
        (by simp [vad_init, hlen])
    have hatr := hat (by simp [vad_init, hlen]) (by omega)
    refine ⟨v', by rw [hrun, hlen], hatr.1, ?_, hatr.2⟩
    simpa [vad_init, hlen] using hcount
  · obtain ⟨v2, hrun, hcount, hbelow, hat⟩ :=
      calib_run_spec cfg frames2 (vad_init cfg) hwf2 rfl
        (by simp [vad_init]; omega)
    refine ⟨v2, hrun, hbelow (by simpa [vad_init] using hlen2), ?_⟩
    simpa [vad_init] using hcount

/-- C5 witness: a two-frame calibration budget, two frames run and a
one-frame run. -/
theorem c5_witness :
    1 ≤ wit_cfg.calibFrames ∧
    [some wit_frame, some wit_frame].length = wit_cfg.calibFrames ∧
    [some wit_frame].length < wit_cfg.calibFrames ∧
    ((∃ v', vad_run wit_cfg (vad_init wit_cfg) [some wit_frame, some wit_frame]
          = some (v', List.replicate wit_cfg.calibFrames false)
      ∧ v'.calibrated = true
      ∧ v'.calibration_count = wit_cfg.calibFrames
      ∧ v'.energy_threshold = v'.noise_floor * wit_cfg.ratioQ)
    ∧ (∃ v2, vad_run wit_cfg (vad_init wit_cfg) [some wit_frame]
          = some (v2, List.replicate [some wit_frame].length false)
      ∧ v2.calibrated = false
      ∧ v2.calibration_count = [some wit_frame].length)) :=
  ⟨by decide, by decide, by decide,
    c5_calibration_bounded wit_cfg (by decide)
      [some wit_frame, some wit_frame] (by decide) (by decide)
      [some wit_frame] (by decide) (by decide)⟩

/-! ## C6 — decision smoothing after calibration -/

/-- C6: after calibration, a frame on which both the energy condition (the
new smoothed energy strictly above the adaptive threshold) and the ZCR
window condition hold advances the consecutive-speech counter by one, and
the function reports speech exactly when that counter has reached
`VAD_MIN_SPEECH_FRAMES`; a frame failing either condition resets the
counter to zero and the function returns `false` on that frame. -/
theorem c6_min_consecutive_speech
    (cfg : vad_config) (vad : vad_context) (f : Option audio_frame) (e : Nat)
    (hcal : vad.calibrated = true)
    (hmin : 1 ≤ cfg.minSpeechFrames)
    (he : audio_calculate_energy f = some e) :
    ((vad.energy_threshold
          < vad.smoothed_energy * (1 - cfg.smoothAlpha) + (e : ℚ) * cfg.smoothAlpha
        ∧ cfg.zcrMin ≤ vad_calculate_zcr f
        ∧ vad_calculate_zcr f ≤ cfg.zcrMax) →
      (vad_detect_speech_enhanced cfg vad f).map (fun x => x.1.speech_frame_count)
          = some (vad.speech_frame_count + 1)
      ∧ ((vad_detect_speech_enhanced cfg vad f).map (fun x => x.2) = some true
          ↔ cfg.minSpeechFrames ≤ vad.speech_frame_count + 1))
    ∧ (¬ (vad.energy_threshold
          < vad.smoothed_energy * (1 - cfg.smoothAlpha) + (e : ℚ) * cfg.smoothAlpha
        ∧ cfg.zcrMin ≤ vad_calculate_zcr f
        ∧ vad_calculate_zcr f ≤ cfg.zcrMax) →
      (vad_detect_speech_enhanced cfg vad f).map (fun x => x.1.speech_frame_count)
          = some 0
      ∧ (vad_detect_speech_enhanced cfg vad f).map (fun x => x.2)
          = some false) := by
  have hm0 : ¬ (cfg.minSpeechFrames ≤ 0) := by omega
  constructor
  · rintro ⟨h1, h2, h3⟩
    constructor
    · simp [vad_detect_speech_enhanced, he, hcal, h1, h2, h3]
    · simp [vad_detect_speech_enhanced, he, hcal, h1, h2, h3]
  · intro hq
    by_cases h1 : vad.energy_threshold
        < vad.smoothed_energy * (1 - cfg.smoothAlpha) + (e : ℚ) * cfg.smoothAlpha
    · by_cases h2 : cfg.zcrMin ≤ vad_calculate_zcr f
      · by_cases h3 : vad_calculate_zcr f ≤ cfg.zcrMax
        · exact absurd ⟨h1, h2, h3⟩ hq
        · constructor <;>
            simp [vad_detect_speech_enhanced, he, hcal, h1, h2, h3,
              vad_update_speech_count, hm0, apply_ite
                (fun v : vad_context => v.speech_frame_count)]
      · constructor <;>
          simp [vad_detect_speech_enhanced, he, hcal, h1, h2,
            vad_update_speech_count, hm0, apply_ite
              (fun v : vad_context => v.speech_frame_count)]
    · constructor <;>
        simp [vad_detect_speech_enhanced, he, hcal, h1,
          vad_update_speech_count, hm0, apply_ite
            (fun v : vad_context => v.speech_frame_count)]

/-- C6 witness: a calibrated context with a qualifying concrete frame. -/
theorem c6_witness :
    wit_vad_cal.calibrated = true ∧
    audio_calculate_energy (some wit_frame) = some 0 ∧
    (((wit_vad_cal.energy_threshold
          < wit_vad_cal.smoothed_energy * (1 - wit_cfg.smoothAlpha)
            + ((0 : Nat) : ℚ) * wit_cfg.smoothAlpha
        ∧ wit_cfg.zcrMin ≤ vad_calculate_zcr (some wit_frame)
        ∧ vad_calculate_zcr (some wit_frame) ≤ wit_cfg.zcrMax) →
      (vad_detect_speech_enhanced wit_cfg wit_vad_cal (some wit_frame)).map
          (fun x => x.1.speech_frame_count)
          = some (wit_vad_cal.speech_frame_count + 1)
      ∧ ((vad_detect_speech_enhanced wit_cfg wit_vad_cal (some wit_frame)).map
            (fun x => x.2) = some true
          ↔ wit_cfg.minSpeechFrames ≤ wit_vad_cal.speech_frame_count + 1))
    ∧ (¬ (wit_vad_cal.energy_threshold
          < wit_vad_cal.smoothed_energy * (1 - wit_cfg.smoothAlpha)
            + ((0 : Nat) : ℚ) * wit_cfg.smoothAlpha
        ∧ wit_cfg.zcrMin ≤ vad_calculate_zcr (some wit_frame)
        ∧ vad_calculate_zcr (some wit_frame) ≤ wit_cfg.zcrMax) →
      (vad_detect_speech_enhanced wit_cfg wit_vad_cal (some wit_frame)).map
          (fun x => x.1.speech_frame_count) = some 0
      ∧ (vad_detect_speech_enhanced wit_cfg wit_vad_cal (some wit_frame)).map
          (fun x => x.2) = some false)) :=
  ⟨rfl, rfl,
    c6_min_consecutive_speech wit_cfg wit_vad_cal (some wit_frame) 0
      rfl (by decide) rfl⟩

/-! ## C7 — degenerate frames -/

/-- C7: a null frame or a null sample buffer yields zero energy, zero ZCR
and a no-speech decision without error; but a frame with a valid buffer
and a zero sample count hits the division `sum / frame->size` with a zero
divisor inside `audio_calculate_energy` (undefined behaviour, modelled as
`none`), contradicting the spec's promise that degenerate frames return
zero energy without error. -/
theorem c7_degenerate_frames
    (cfg : vad_config) (vad : vad_context) (n : Nat) (l : List Int)
    (hzcr : 1 ≤ cfg.zcrMin) (hmin : 1 ≤ cfg.minSpeechFrames) :
    audio_calculate_energy none = some 0
    ∧ audio_calculate_energy (some { buffer := none, size := n }) = some 0
    ∧ vad_calculate_zcr none = 0
    ∧ vad_calculate_zcr (some { buffer := none, size := n }) = 0
    ∧ vad_calculate_zcr (some { buffer := some l, size := 0 }) = 0
    ∧ (vad_detect_speech_enhanced cfg vad none).map (fun x => x.2)
        = some false
    ∧ (vad_detect_speech_enhanced cfg vad
          (some { buffer := none, size := n })).map (fun x => x.2)
        = some false
    ∧ audio_calculate_energy (some { buffer := some l, size := 0 }) = none
    ∧ vad_detect_speech_enhanced cfg vad (some { buffer := some l, size := 0 })
        = none := by
  have hm0 : ¬ (cfg.minSpeechFrames ≤ 0) := by omega
  have hz0 : ¬ (cfg.zcrMin ≤ 0) := by omega
  refine ⟨rfl, by simp [audio_calculate_energy], rfl,
    by simp [vad_calculate_zcr], by simp [vad_calculate_zcr], ?_, ?_,
    by simp [audio_calculate_energy], ?_⟩
  · by_cases hcal : vad.calibrated = false
    · simp [vad_detect_speech_enhanced, audio_calculate_energy,
        vad_calculate_zcr, hcal]
    · simp [vad_detect_speech_enhanced, audio_calculate_energy,
        vad_calculate_zcr, hcal, hz0, hm0, apply_ite
          (fun v : vad_context => v.speech_frame_count),
        vad_update_speech_count]
  · by_cases hcal : vad.calibrated = false
    · simp [vad_detect_speech_enhanced, audio_calculate_energy,
        vad_calculate_zcr, hcal]
    · simp [vad_detect_speech_enhanced, audio_calculate_energy,
        vad_calculate_zcr, hcal, hz0, hm0, apply_ite
          (fun v : vad_context => v.speech_frame_count),
        vad_update_speech_count]
  · simp [vad_detect_speech_enhanced, audio_calculate_energy]

/-- C7 witness: concrete configuration and VAD context, a concrete
null-buffer frame and the concrete zero-size frame that divides by
zero. -/
theorem c7_witness :
    1 ≤ wit_cfg.zcrMin ∧ 1 ≤ wit_cfg.minSpeechFrames ∧
    (audio_calculate_energy none = some 0
      ∧ audio_calculate_energy (some { buffer := none, size := 3 }) = some 0
      ∧ vad_calculate_zcr none = 0
      ∧ vad_calculate_zcr (some { buffer := none, size := 3 }) = 0
      ∧ vad_calculate_zcr (some { buffer := some [5, -5], size := 0 }) = 0
      ∧ (vad_detect_speech_enhanced wit_cfg wit_vad_cal none).map
            (fun x => x.2) = some false
      ∧ (vad_detect_speech_enhanced wit_cfg wit_vad_cal
            (some { buffer := none, size := 3 })).map (fun x => x.2)
          = some false
      ∧ audio_calculate_energy (some { buffer := some [5, -5], size := 0 })
          = none
      ∧ vad_detect_speech_enhanced wit_cfg wit_vad_cal
          (some { buffer := some [5, -5], size := 0 }) = none) :=
  ⟨by decide, by decide,
    c7_degenerate_frames wit_cfg wit_vad_cal 3 [5, -5] (by decide)
      (by decide)⟩

end ArtPi
